import Mathlib

/-!
Verification development for the IdleShutdown agent (vm-idle-shutdown).

Shallow embedding conventions:
* `time.Time` instants and `time.Duration` values are embedded as integers
  counting seconds; `N * time.Minute` becomes `N * 60`.
* Go `float64` values (CPU usage percentages, thresholds) are embedded as
  rationals; Go comparisons on them become the corresponding rational
  comparisons.
* The Go comparison `stddev(vals, avg) < bound` (with `stddev` the square
  root of the population variance and `bound` one of the positive constants
  1.0 / 2.0) is embedded as `variance < bound * bound`, which is equivalent
  for a positive bound because the square root is strictly monotone on
  nonnegative reals; this keeps every definition executable over rationals.
* Fallible Go functions returning `(T, error)` become `Except String T`.
-/

set_option linter.unusedVariables false

/-- Decidable equality on `Except`, used to evaluate embedded fallible
functions at concrete inputs. -/
instance {ε α : Type} [DecidableEq ε] [DecidableEq α] : DecidableEq (Except ε α) := fun x y =>
  match x, y with
  | Except.ok a, Except.ok b =>
    if h : a = b then isTrue (by rw [h]) else isFalse (fun hc => h (Except.ok.inj hc))
  | Except.error a, Except.error b =>
    if h : a = b then isTrue (by rw [h]) else isFalse (fun hc => h (Except.error.inj hc))
  | Except.ok _, Except.error _ => isFalse (fun hc => Except.noConfusion hc)
  | Except.error _, Except.ok _ => isFalse (fun hc => Except.noConfusion hc)

namespace IdleShutdown

/-- Embeds `monitor.cpuSample` / `monitor.CPUSample`: a timestamped CPU
usage percentage reading (src/unnamed/part_006). -/
structure CPUSample where
  Timestamp : ℤ
  Usage : ℚ
deriving DecidableEq, Repr

/-- Embeds `monitor.userSample`: a timestamped logged-in user count
(src/internal/monitor/users.go); the diagnostic list of user names is
irrelevant to every predicate and omitted. -/
structure UserSample where
  timestamp : ℤ
  userCount : ℕ
deriving DecidableEq, Repr

/-- In-window CPU samples: those with timestamp strictly after
`now - minutes` minutes, as selected by `CPUMonitor.IsBelowThreshold`
(src/unnamed/part_006 lines 189-196). -/
def inWindowCPU (samples : List CPUSample) (now : ℤ) (minutes : ℕ) : List CPUSample :=
  samples.filter (fun s => decide (now - (minutes : ℤ) * 60 < s.Timestamp))

/-- In-window user samples: those with timestamp strictly after
`now - minutes` minutes, as selected by `UserMonitor.NoUsersLoggedIn`
(src/internal/monitor/users.go lines 118-126). -/
def inWindowUsers (samples : List UserSample) (now : ℤ) (minutes : ℕ) : List UserSample :=
  samples.filter (fun s => decide (now - (minutes : ℤ) * 60 < s.timestamp))

/-- The minimum-samples guard `minSamples := minutes / 2; if minSamples < 1
then 1`, i.e. `max 1 (minutes / 2)` with integer division
(src/unnamed/part_006 lines 198-202, src/internal/monitor/users.go
lines 128-132). -/
def minSamplesGuard (minutes : ℕ) : ℕ :=
  max 1 (minutes / 2)

/-- Embeds `CPUMonitor.IsBelowThreshold` (src/unnamed/part_006
lines 185-220): false when fewer than `minSamplesGuard minutes` samples lie
in the window, otherwise true iff every in-window sample's usage is
strictly below the threshold (the Go loop returns false at the first
sample with `usage >= float64(threshold)`). -/
def IsBelowThreshold (samples : List CPUSample) (now : ℤ) (threshold : ℤ) (minutes : ℕ) : Bool :=
  let samplesInWindow := inWindowCPU samples now minutes
  if samplesInWindow.length < minSamplesGuard minutes then false
  else samplesInWindow.all (fun s => decide (s.Usage < (threshold : ℚ)))

/-- Embeds `UserMonitor.NoUsersLoggedIn` (src/internal/monitor/users.go
lines 114-151): false when fewer than `minSamplesGuard minutes` samples lie
in the window, otherwise true iff every in-window sample's user count is
zero (the Go loop returns false at the first sample with `userCount > 0`). -/
def NoUsersLoggedIn (samples : List UserSample) (now : ℤ) (minutes : ℕ) : Bool :=
  let samplesInWindow := inWindowUsers samples now minutes
  if samplesInWindow.length < minSamplesGuard minutes then false
  else samplesInWindow.all (fun s => decide (s.userCount = 0))

/-- Embeds `config.Config` (src/internal/config/config.go lines 24-36). -/
structure Config where
  CPUCheckMinutes : ℕ
  UserCheckMinutes : ℕ
  CPUThreshold : ℤ
  AutoMode : Bool
deriving DecidableEq, Repr

/-- The defaults installed at the top of `config.Load`
(src/internal/config/config.go lines 64-69): check windows 60/60 minutes,
threshold 25, auto mode. -/
def defaultConfig : Config :=
  { CPUCheckMinutes := 60, UserCheckMinutes := 60, CPUThreshold := 25, AutoMode := true }

/-- An INI key's value as `config.Load` observes it through
`section.GetKey(...)` followed by `key.Int()`: either an integer, or
present but not parseable as an integer. -/
inductive KeyVal where
  | int (v : ℤ)
  | malformed
deriving DecidableEq, Repr

/-- The `[monitoring]` section of config.ini as far as `config.Load` reads
it: each key is absent (`none`) or present with a parse outcome. -/
structure IniMonitoringSection where
  cpu_check_minutes : Option KeyVal
  user_check_minutes : Option KeyVal
  cpu_threshold : Option KeyVal
deriving DecidableEq, Repr

/-- What `config.Load` can encounter at the configured path: no file
(`os.Stat` reports not-exist), a file `ini.Load` fails to read, or a
readable file with a `[monitoring]` section. -/
inductive ConfigSource where
  | missing
  | unreadable
  | readable (sec : IniMonitoringSection)
deriving DecidableEq, Repr

/-- Embeds the `cpu_check_minutes` step of `config.Load`
(src/internal/config/config.go lines 83-87): overwrite the default only
when the key is present, parses, and is positive. -/
def applyCPUCheckKey (k : Option KeyVal) (cfg : Config) : Config :=
  match k with
  | some (KeyVal.int v) => if 0 < v then { cfg with CPUCheckMinutes := v.toNat } else cfg
  | _ => cfg

/-- Embeds the `user_check_minutes` step of `config.Load`
(src/internal/config/config.go lines 89-93). -/
def applyUserCheckKey (k : Option KeyVal) (cfg : Config) : Config :=
  match k with
  | some (KeyVal.int v) => if 0 < v then { cfg with UserCheckMinutes := v.toNat } else cfg
  | _ => cfg

/-- Embeds the `cpu_threshold` step of `config.Load`
(src/internal/config/config.go lines 97-102): manual mode only when the key
is present, parses as an integer, and lies in [0,100]. -/
def applyThresholdKey (k : Option KeyVal) (cfg : Config) : Config :=
  match k with
  | some (KeyVal.int v) =>
    if 0 ≤ v ∧ v ≤ 100 then { cfg with CPUThreshold := v, AutoMode := false } else cfg
  | _ => cfg

/-- Embeds `config.Load` (src/internal/config/config.go lines 63-105):
a missing file yields the defaults without error; a file `ini.Load`
cannot read yields an error; otherwise the three keys are applied to the
defaults in order. -/
def Load (src : ConfigSource) : Except String Config :=
  match src with
  | ConfigSource.missing => Except.ok defaultConfig
  | ConfigSource.unreadable => Except.error "failed to load config file"
  | ConfigSource.readable sec =>
    Except.ok (applyThresholdKey sec.cpu_threshold
      (applyUserCheckKey sec.user_check_minutes
        (applyCPUCheckKey sec.cpu_check_minutes defaultConfig)))

/-- Embeds the startup sequence of `main` (src/cmd/idleshutdown/main.go
lines 46-49): a `config.Load` error is `log.Fatalf` — the process exits and
monitoring never starts (`none`); otherwise monitoring proceeds with the
loaded configuration. -/
def startupConfig (src : ConfigSource) : Option Config :=
  match Load src with
  | Except.error _ => none
  | Except.ok cfg => some cfg

/-- Embeds `calibrator.State` (src/internal/shutdown/shutdown.go, package
calibrator part, lines 79-85): the durable calibration record. -/
structure State where
  InitialDone : Bool
  LastCalibTime : ℤ
  StartTime : ℤ
  CurrentThreshold : ℚ
  IdleBaseline : ℚ
deriving DecidableEq, Repr

/-- Embeds Go `math.Round`: round half away from zero. -/
def mathRound (x : ℚ) : ℤ :=
  if 0 ≤ x then ⌊x + 1 / 2⌋ else -⌊-x + 1 / 2⌋

namespace Calibrator

/-- Embeds `calibrator.New` on a first start (no state file on disk, so
`loadState` leaves the zero `State` and `StartTime.IsZero()` holds): the
state is all-zero except `StartTime`, which is set to the current time
(src/internal/shutdown/shutdown.go lines 96-110). -/
def newState (now : ℤ) : State :=
  { InitialDone := false, LastCalibTime := 0, StartTime := now,
    CurrentThreshold := 0, IdleBaseline := 0 }

/-- Embeds `Calibrator.IsInLearningPhase`
(src/internal/shutdown/shutdown.go lines 112-115). -/
def IsInLearningPhase (st : State) : Bool :=
  !st.InitialDone

/-- Embeds `Calibrator.CurrentThreshold`
(src/internal/shutdown/shutdown.go lines 127-130):
`int(math.Round(state.CurrentThreshold))`. -/
def CurrentThresholdInt (st : State) : ℤ :=
  mathRound st.CurrentThreshold

/-- Embeds `Calibrator.ShouldRunInitial`
(src/internal/shutdown/shutdown.go lines 132-135); `initialLookback` is
`calibCfg.InitialLookback()` and `now - st.StartTime` is
`time.Since(c.state.StartTime)`. -/
def ShouldRunInitial (st : State) (initialLookback now : ℤ) : Bool :=
  !st.InitialDone && decide (initialLookback ≤ now - st.StartTime)

/-- Embeds `Calibrator.ShouldRunWeekly`
(src/internal/shutdown/shutdown.go lines 137-140). -/
def ShouldRunWeekly (st : State) (recalibInterval now : ℤ) : Bool :=
  st.InitialDone && decide (recalibInterval ≤ now - st.LastCalibTime)

/-- `windowDuration = 30 * time.Minute` in seconds
(src/internal/shutdown/shutdown.go line 67). -/
def windowDuration : ℤ := 30 * 60

/-- `minWindowSamples = 5` (src/internal/shutdown/shutdown.go line 69). -/
def minWindowSamples : ℕ := 5

/-- `minCalibSamples = 10` (src/internal/shutdown/shutdown.go line 71). -/
def minCalibSamples : ℕ := 10

/-- `ThresholdBuffer = 3.0` (src/internal/shutdown/shutdown.go line 59). -/
def ThresholdBuffer : ℚ := 3

/-- `MinThreshold = 5.0` (src/internal/shutdown/shutdown.go line 61). -/
def MinThreshold : ℚ := 5

/-- `stddevTight = 1.0` (src/internal/shutdown/shutdown.go line 63). -/
def stddevTight : ℚ := 1

/-- `stddevLoose = 2.0` (src/internal/shutdown/shutdown.go line 65). -/
def stddevLoose : ℚ := 2

/-- Embeds `mean` (src/internal/shutdown/shutdown.go lines 363-369). -/
def mean (vals : List ℚ) : ℚ :=
  vals.sum / (vals.length : ℚ)

/-- The sum of squared deviations from `avg`, the quantity `sum` computed
by `stddev` (src/internal/shutdown/shutdown.go lines 371-378) before the
division and square root. -/
def sqDevSum (vals : List ℚ) (avg : ℚ) : ℚ :=
  (vals.map (fun v => (v - avg) * (v - avg))).sum

/-- Embeds the comparison `stddev(winValues, avg) < maxStddev`
(src/internal/shutdown/shutdown.go line 354): since
`stddev = sqrt(sqDevSum / n)` and the square root is strictly monotone on
nonnegative reals, for a positive bound the comparison holds iff the
population variance is below the bound's square. -/
def stddevBelow (vals : List ℚ) (avg bound : ℚ) : Bool :=
  decide (sqDevSum vals avg / (vals.length : ℚ) < bound * bound)

/-- The values of the sliding window starting at sample `i`: every sample
`j ≥ i` whose timestamp is strictly before `samples[i].Timestamp +
windowDuration`, exactly the inner loop of `slidingWindowMin`
(src/internal/shutdown/shutdown.go lines 344-347); the Go loop stops at
the first sample at or past the window end, hence `takeWhile`. -/
def windowValues (samples : List CPUSample) (i : ℕ) : List ℚ :=
  match samples.drop i with
  | [] => []
  | s :: rest =>
    ((s :: rest).takeWhile (fun t => decide (t.Timestamp < s.Timestamp + windowDuration))).map
      (fun t => t.Usage)

/-- The loop body of `slidingWindowMin` (src/internal/shutdown/shutdown.go
lines 343-358) acting on the running minimum: skip the window starting at
sample `i` when it has fewer than `minWindowSamples` values, otherwise
keep its mean when the standard deviation is below `maxStddev` and the
mean improves on the minimum so far; `none` plays the role of the initial
`minAvg = math.MaxFloat64, found = false`. -/
def swmStep (samples : List CPUSample) (maxStddev : ℚ) (acc : Option ℚ) (i : ℕ) : Option ℚ :=
  if (windowValues samples i).length < minWindowSamples then acc
  else
    if stddevBelow (windowValues samples i) (mean (windowValues samples i)) maxStddev &&
        (match acc with
         | none => true
         | some m => decide (mean (windowValues samples i) < m)) then
      some (mean (windowValues samples i))
    else acc

/-- Embeds `slidingWindowMin` (src/internal/shutdown/shutdown.go
lines 339-361): fold the loop body over every window start index. -/
def slidingWindowMin (samples : List CPUSample) (maxStddev : ℚ) : Option ℚ :=
  (List.range samples.length).foldl (swmStep samples maxStddev) none

/-- One update of the running minimum: the effect of the `slidingWindowMin`
loop body on `(minAvg, found)` for a qualifying window with mean `v`. -/
def minStep (acc : Option ℚ) (v : ℚ) : Option ℚ :=
  match acc with
  | none => some v
  | some m => if v < m then some v else acc

/-- The least element of a list computed by folding `minStep`, the shape
of `slidingWindowMin` restricted to qualifying means. -/
def minFold (l : List ℚ) : Option ℚ :=
  l.foldl minStep none

/-- The mean of the window starting at sample `i`, when that window
qualifies (at least `minWindowSamples` values, standard deviation below
`bound`); `none` when it does not. -/
def qualifyingMean (samples : List CPUSample) (bound : ℚ) (i : ℕ) : Option ℚ :=
  let w := windowValues samples i
  if w.length < minWindowSamples then none
  else if stddevBelow w (mean w) bound then some (mean w) else none

/-- The means of all qualifying windows, in window-start order. -/
def qualMeans (samples : List CPUSample) (bound : ℚ) : List ℚ :=
  (List.range samples.length).filterMap (qualifyingMean samples bound)

/-- Embeds `findIdleBaseline` (src/internal/shutdown/shutdown.go
lines 328-337): try the tight bound, then the loose bound; `none` embeds
the "no stable idle windows found" error. -/
def findIdleBaseline (samples : List CPUSample) : Option ℚ :=
  match slidingWindowMin samples stddevTight with
  | some baseline => some baseline
  | none => slidingWindowMin samples stddevLoose

/-- The samples retained by `Calibrator.Run`'s lookback filter
(src/internal/shutdown/shutdown.go lines 144-150): timestamp strictly
after `now - lookback`. -/
def calibWindow (samples : List CPUSample) (lookback now : ℤ) : List CPUSample :=
  samples.filter (fun s => decide (now - lookback < s.Timestamp))

/-- Embeds `Calibrator.Run` (src/internal/shutdown/shutdown.go
lines 143-181) as a function from the prior state to the returned value
and the posterior state: too few in-window samples or no stable idle
window yield an error and leave the state untouched; success computes
`round(max(idleBaseline + ThresholdBuffer, MinThreshold))`, records it
together with the baseline, sets `InitialDone` and `LastCalibTime`, and
returns the rounded threshold. -/
def Run (st : State) (samples : List CPUSample) (lookback now : ℤ) :
    Except String ℚ × State :=
  if (calibWindow samples lookback now).length < minCalibSamples then
    (Except.error "insufficient samples", st)
  else
    match findIdleBaseline (calibWindow samples lookback now) with
    | none => (Except.error "calibration failed: no stable idle windows found", st)
    | some idleBaseline =>
      let rounded : ℚ := (mathRound (max (idleBaseline + ThresholdBuffer) MinThreshold) : ℚ)
      (Except.ok rounded,
        { st with
            InitialDone := true
            LastCalibTime := now
            CurrentThreshold := rounded
            IdleBaseline := idleBaseline })

end Calibrator

/-- The human-readable reason string passed to the shutdown sink
(src/cmd/idleshutdown/main.go line 226). -/
def shutdownReason : String :=
  "VM idle — CPU below threshold and no users logged in"

/-- Embeds `evaluateShutdownCondition` (src/cmd/idleshutdown/main.go
lines 206-231), returning the list of shutdown-sink invocations performed
during the call (each with its reason string): one when both idle
predicates hold, none otherwise. -/
def evaluateShutdownCondition (cfg : Config) (cpuSamples : List CPUSample)
    (userSamples : List UserSample) (now : ℤ) : List String :=
  if IsBelowThreshold cpuSamples now cfg.CPUThreshold cfg.CPUCheckMinutes &&
      NoUsersLoggedIn userSamples now cfg.UserCheckMinutes then
    [shutdownReason]
  else
    []

/-- The config reload at the top of each evaluation tick
(src/cmd/idleshutdown/main.go lines 124-130): a failed reload keeps the
last known configuration. -/
def reloadedCfg (cfg0 : Config) (reload : Except String Config) : Config :=
  match reload with
  | Except.ok latest => latest
  | Except.error _ => cfg0

/-- Embeds one evaluation tick of the main loop
(src/cmd/idleshutdown/main.go lines 123-146): reload the configuration;
in auto mode with a calibrator still in the learning phase, skip
evaluation entirely; otherwise, in auto mode take the threshold from the
calibration state, then run `evaluateShutdownCondition`. Returns the
effective configuration of the tick and the list of shutdown-sink
invocations. -/
def decisionTick (cfg0 : Config) (reload : Except String Config)
    (calib : Option State) (cpuSamples : List CPUSample)
    (userSamples : List UserSample) (now : ℤ) : Config × List String :=
  let cfg := reloadedCfg cfg0 reload
  match calib with
  | some st =>
    if cfg.AutoMode && Calibrator.IsInLearningPhase st then
      (cfg, [])
    else
      let cfg2 :=
        if cfg.AutoMode then { cfg with CPUThreshold := Calibrator.CurrentThresholdInt st }
        else cfg
      (cfg2, evaluateShutdownCondition cfg2 cpuSamples userSamples now)
  | none => (cfg, evaluateShutdownCondition cfg cpuSamples userSamples now)

/-! ### Example inputs used to exercise the theorems on concrete data -/

/-- Ten CPU samples 60 seconds apart, all at 0.5% usage. -/
def exCalibSamples : List CPUSample :=
  (List.range 10).map (fun i => { Timestamp := 60 * (i : ℤ), Usage := 1 / 2 })

/-- A single CPU sample 10 seconds old at 50% usage. -/
def exOneCpuSample : List CPUSample := [{ Timestamp := 990, Usage := 50 }]

/-- A single CPU sample 10 seconds old exactly at 25% usage. -/
def exCpuAtThreshold : List CPUSample := [{ Timestamp := 990, Usage := 25 }]

/-- A single CPU sample 10 seconds old at 10% usage. -/
def exCpuLow : List CPUSample := [{ Timestamp := 990, Usage := 10 }]

/-- A single user sample 10 seconds old with zero users. -/
def exUsersZero : List UserSample := [{ timestamp := 990, userCount := 0 }]

/-- A manual-mode configuration with 2-minute check windows. -/
def exManualCfg : Config :=
  { CPUCheckMinutes := 2, UserCheckMinutes := 2, CPUThreshold := 25, AutoMode := false }

/-- A `[monitoring]` section whose `cpu_threshold` key is present but does
not parse as an integer. -/
def exSecBadThreshold : IniMonitoringSection :=
  { cpu_check_minutes := some (KeyVal.int 30), user_check_minutes := none,
    cpu_threshold := some KeyVal.malformed }

/-! ### Claims C3 and C4: the idle predicates -/

/-- Claim C3: for every buffer snapshot, window length and threshold, if
fewer than `max 1 (N / 2)` samples have timestamp strictly after
`now - N` minutes, both idle predicates return false regardless of the
samples' values. -/
theorem claim_C3_insufficient_data_guard (cs : List CPUSample) (us : List UserSample)
    (now threshold : ℤ) (minutes : ℕ)
    (hcs : (inWindowCPU cs now minutes).length < minSamplesGuard minutes)
    (hus : (inWindowUsers us now minutes).length < minSamplesGuard minutes) :
    IsBelowThreshold cs now threshold minutes = false ∧
    NoUsersLoggedIn us now minutes = false := by
  constructor
  · unfold IsBelowThreshold
    simp only [if_pos hcs]
  · unfold NoUsersLoggedIn
    simp only [if_pos hus]

/-- Claim C3 witness: one CPU sample (at 50%) and no user samples over a
requested 60-minute window are below the guard of 30, so both predicates
are false. -/
theorem claim_C3_witness :
    (inWindowCPU exOneCpuSample 1000 60).length < minSamplesGuard 60 ∧
    IsBelowThreshold exOneCpuSample 1000 25 60 = false ∧
    NoUsersLoggedIn [] 1000 60 = false :=
  ⟨by decide,
   claim_C3_insufficient_data_guard exOneCpuSample [] 1000 25 60 (by decide) (by decide)⟩

/-- Claim C4: once the in-window sample count meets the guard, the CPU
idle predicate is true iff every in-window sample's usage is strictly
below the threshold, and the session idle predicate is true iff every
in-window sample's user count is zero. -/
theorem claim_C4_predicate_characterization (cs : List CPUSample) (us : List UserSample)
    (now threshold : ℤ) (minutes : ℕ)
    (hcs : minSamplesGuard minutes ≤ (inWindowCPU cs now minutes).length)
    (hus : minSamplesGuard minutes ≤ (inWindowUsers us now minutes).length) :
    (IsBelowThreshold cs now threshold minutes = true ↔
      ∀ s ∈ inWindowCPU cs now minutes, s.Usage < (threshold : ℚ)) ∧
    (NoUsersLoggedIn us now minutes = true ↔
      ∀ s ∈ inWindowUsers us now minutes, s.userCount = 0) := by
  constructor
  · unfold IsBelowThreshold
    simp only [if_neg (Nat.not_lt.mpr hcs)]
    simp [List.all_eq_true]
  · unfold NoUsersLoggedIn
    simp only [if_neg (Nat.not_lt.mpr hus)]
    simp [List.all_eq_true]

unseal Rat.add Rat.mul Rat.inv Rat.sub in
/-- Claim C4 witness: over a 2-minute window (guard 1), a single sample
exactly at the threshold makes the CPU predicate false (strict
inequality), while a single zero-user sample makes the session predicate
true. -/
theorem claim_C4_witness :
    IsBelowThreshold exCpuAtThreshold 1000 25 2 = false ∧
    NoUsersLoggedIn exUsersZero 1000 2 = true := by
  have h := claim_C4_predicate_characterization exCpuAtThreshold exUsersZero 1000 25 2
    (by decide) (by decide)
  constructor
  · have hnot : ¬ ∀ s ∈ inWindowCPU exCpuAtThreshold 1000 2, s.Usage < ((25 : ℤ) : ℚ) := by
      intro hall
      have h25 := hall { Timestamp := 990, Usage := 25 } (by decide)
      norm_num at h25
    cases hb : IsBelowThreshold exCpuAtThreshold 1000 25 2
    · rfl
    · exact absurd (h.1.mp hb) hnot
  · exact h.2.mpr (by decide)

/-! ### Claims C1 and C2: the decision loop -/

/-- `evaluateShutdownCondition` invokes the sink exactly once, with the
reason string, iff both idle predicates hold; otherwise not at all. -/
lemma evaluateShutdownCondition_iff (cfg : Config) (cs : List CPUSample)
    (us : List UserSample) (now : ℤ) :
    (evaluateShutdownCondition cfg cs us now = [shutdownReason] ↔
      (IsBelowThreshold cs now cfg.CPUThreshold cfg.CPUCheckMinutes = true ∧
       NoUsersLoggedIn us now cfg.UserCheckMinutes = true)) ∧
    (evaluateShutdownCondition cfg cs us now = [shutdownReason] ∨
      evaluateShutdownCondition cfg cs us now = []) := by
  by_cases hA : IsBelowThreshold cs now cfg.CPUThreshold cfg.CPUCheckMinutes = true <;>
    by_cases hB : NoUsersLoggedIn us now cfg.UserCheckMinutes = true <;>
      simp [evaluateShutdownCondition, hA, hB]

/-- Claim C1: on every evaluation tick not skipped by the learning phase,
the shutdown sink is invoked iff both idle predicates hold for the
effective configuration of the tick — and when both hold, exactly once,
with the human-readable reason string; moreover in auto mode the
effective threshold is the calibrated one. -/
theorem claim_C1_tick_invokes_iff (cfg0 : Config) (reload : Except String Config)
    (calib : Option State) (cs : List CPUSample) (us : List UserSample) (now : ℤ)
    (hnoskip : ∀ st, calib = some st → (reloadedCfg cfg0 reload).AutoMode = true →
      Calibrator.IsInLearningPhase st = false) :
    ((decisionTick cfg0 reload calib cs us now).2 = [shutdownReason] ↔
      (IsBelowThreshold cs now (decisionTick cfg0 reload calib cs us now).1.CPUThreshold
          (decisionTick cfg0 reload calib cs us now).1.CPUCheckMinutes = true ∧
       NoUsersLoggedIn us now
          (decisionTick cfg0 reload calib cs us now).1.UserCheckMinutes = true)) ∧
    ((decisionTick cfg0 reload calib cs us now).2 = [shutdownReason] ∨
      (decisionTick cfg0 reload calib cs us now).2 = []) ∧
    (∀ st, calib = some st → (reloadedCfg cfg0 reload).AutoMode = true →
      (decisionTick cfg0 reload calib cs us now).1.CPUThreshold =
        Calibrator.CurrentThresholdInt st) := by
  cases calib with
  | none =>
    have h := evaluateShutdownCondition_iff (reloadedCfg cfg0 reload) cs us now
    refine ⟨?_, ?_, ?_⟩
    · simpa [decisionTick] using h.1
    · simpa [decisionTick] using h.2
    · intro st hst
      cases hst
  | some st =>
    have hlearn := hnoskip st rfl
    by_cases hauto : (reloadedCfg cfg0 reload).AutoMode = true
    · have hl := hlearn hauto
      have h := evaluateShutdownCondition_iff
        { reloadedCfg cfg0 reload with CPUThreshold := Calibrator.CurrentThresholdInt st }
        cs us now
      refine ⟨?_, ?_, ?_⟩
      · simpa [decisionTick, hauto, hl] using h.1
      · simpa [decisionTick, hauto, hl] using h.2
      · intro st2 hst2 _
        cases hst2
        simp [decisionTick, hauto, hl]
    · have hfalse : (reloadedCfg cfg0 reload).AutoMode = false := by
        cases hx : (reloadedCfg cfg0 reload).AutoMode
        · rfl
        · exact absurd hx hauto
      have h := evaluateShutdownCondition_iff (reloadedCfg cfg0 reload) cs us now
      refine ⟨?_, ?_, ?_⟩
      · simpa [decisionTick, hfalse] using h.1
      · simpa [decisionTick, hfalse] using h.2
      · intro st2 hst2 hx
        exact absurd hx hauto

unseal Rat.add Rat.mul Rat.inv Rat.sub in
/-- Claim C1 witness: in manual mode with 2-minute windows, a tick with
one low CPU sample and one zero-user sample invokes the sink exactly once
with the reason string. -/
theorem claim_C1_witness :
    (decisionTick defaultConfig (Except.ok exManualCfg) none exCpuLow exUsersZero 1000).2 =
      [shutdownReason] := by
  have h := claim_C1_tick_invokes_iff defaultConfig (Except.ok exManualCfg) none
    exCpuLow exUsersZero 1000 (by intro st hst; cases hst)
  exact h.1.mpr ⟨by decide, by decide⟩

/-- Claim C2: in automatic mode, while the calibrator is still in the
learning phase, the evaluation tick skips evaluation entirely: the tick's
result is the reloaded configuration with no sink invocation, independent
of the contents of both sample buffers (neither predicate is consulted). -/
theorem claim_C2_learning_skips_evaluation (cfg0 : Config) (reload : Except String Config)
    (st : State) (cs : List CPUSample) (us : List UserSample) (now : ℤ)
    (hauto : (reloadedCfg cfg0 reload).AutoMode = true)
    (hlearn : Calibrator.IsInLearningPhase st = true) :
    decisionTick cfg0 reload (some st) cs us now = (reloadedCfg cfg0 reload, []) := by
  simp [decisionTick, hauto, hlearn]

/-- Claim C2 witness: with a freshly created calibrator state and an
auto-mode configuration, a tick makes no shutdown decision even though the
buffers (one low CPU sample, one zero-user sample) would satisfy both
predicates. -/
theorem claim_C2_witness :
    decisionTick defaultConfig (Except.error "reload failed")
      (some (Calibrator.newState 0)) exCpuLow exUsersZero 1000 = (defaultConfig, []) :=
  claim_C2_learning_skips_evaluation defaultConfig (Except.error "reload failed")
    (Calibrator.newState 0) exCpuLow exUsersZero 1000 (by decide) (by decide)

/-! ### Claims C9 and C10: configuration loading -/

/-- The `cpu_check_minutes` step of `Load` never touches `CPUThreshold`
or `AutoMode`. -/
lemma applyCPUCheckKey_preserve (k : Option KeyVal) (cfg : Config) :
    (applyCPUCheckKey k cfg).AutoMode = cfg.AutoMode ∧
    (applyCPUCheckKey k cfg).CPUThreshold = cfg.CPUThreshold := by
  rcases k with _ | kv
  · exact ⟨rfl, rfl⟩
  · cases kv with
    | int v => by_cases h : 0 < v <;> simp [applyCPUCheckKey, h]
    | malformed => exact ⟨rfl, rfl⟩

/-- The `user_check_minutes` step of `Load` never touches `CPUThreshold`
or `AutoMode`. -/
lemma applyUserCheckKey_preserve (k : Option KeyVal) (cfg : Config) :
    (applyUserCheckKey k cfg).AutoMode = cfg.AutoMode ∧
    (applyUserCheckKey k cfg).CPUThreshold = cfg.CPUThreshold := by
  rcases k with _ | kv
  · exact ⟨rfl, rfl⟩
  · cases kv with
    | int v => by_cases h : 0 < v <;> simp [applyUserCheckKey, h]
    | malformed => exact ⟨rfl, rfl⟩

/-- The check-window steps of `Load` never touch `CPUThreshold` or
`AutoMode`. -/
lemma applyCheckKeys_preserve (k1 k2 : Option KeyVal) (cfg : Config) :
    (applyUserCheckKey k2 (applyCPUCheckKey k1 cfg)).AutoMode = cfg.AutoMode ∧
    (applyUserCheckKey k2 (applyCPUCheckKey k1 cfg)).CPUThreshold = cfg.CPUThreshold := by
  have h1 := applyCPUCheckKey_preserve k1 cfg
  have h2 := applyUserCheckKey_preserve k2 (applyCPUCheckKey k1 cfg)
  exact ⟨h2.1.trans h1.1, h2.2.trans h1.2⟩

/-- Claim C9 counterexample: a path at which no configuration file exists
is a path with no readable configuration, yet `Load` does not return an
error — it returns the built-in defaults (60/60-minute check windows,
threshold 25, auto mode) and the process starts monitoring with them. -/
theorem claim_C9_counterexample :
    Load ConfigSource.missing = Except.ok defaultConfig ∧
    startupConfig ConfigSource.missing = some defaultConfig ∧
    defaultConfig.CPUThreshold = 25 ∧ defaultConfig.CPUCheckMinutes = 60 ∧
    defaultConfig.UserCheckMinutes = 60 ∧ defaultConfig.AutoMode = true := by
  exact ⟨rfl, rfl, rfl, rfl, rfl, rfl⟩

/-- Claim C9 (amended): a configuration file that exists but cannot be
parsed is fatal — `Load` returns an error and the process refuses to
start monitoring; a missing configuration file, however, is not an error:
`Load` substitutes the built-in defaults (auto mode) and monitoring
starts, and a readable file never fails to load. -/
theorem claim_C9_amended_load_failure_fatal :
    (∃ e, Load ConfigSource.unreadable = Except.error e) ∧
    startupConfig ConfigSource.unreadable = none ∧
    Load ConfigSource.missing = Except.ok defaultConfig ∧
    startupConfig ConfigSource.missing = some defaultConfig ∧
    (∀ sec, ∃ cfg, Load (ConfigSource.readable sec) = Except.ok cfg) := by
  exact ⟨⟨_, rfl⟩, rfl, rfl, rfl, fun sec => ⟨_, rfl⟩⟩

/-- Claim C10: `Load` on a readable file succeeds, enters manual mode iff
the `cpu_threshold` key is present and parses as an integer in [0,100],
and on a present-but-invalid `cpu_threshold` value keeps auto mode with
the default threshold 25, yielding exactly the configuration obtained
when the key is absent. -/
theorem claim_C10_threshold_key_validation (sec : IniMonitoringSection) :
    (∃ cfg, Load (ConfigSource.readable sec) = Except.ok cfg ∧
      (cfg.AutoMode = false ↔
        ∃ v, sec.cpu_threshold = some (KeyVal.int v) ∧ 0 ≤ v ∧ v ≤ 100)) ∧
    ((∀ v, sec.cpu_threshold = some (KeyVal.int v) → ¬(0 ≤ v ∧ v ≤ 100)) →
      Load (ConfigSource.readable sec) =
        Load (ConfigSource.readable { sec with cpu_threshold := none }) ∧
      ∃ cfg, Load (ConfigSource.readable sec) = Except.ok cfg ∧
        cfg.AutoMode = true ∧ cfg.CPUThreshold = 25) := by
  have hpre := applyCheckKeys_preserve sec.cpu_check_minutes sec.user_check_minutes defaultConfig
  set X := applyUserCheckKey sec.user_check_minutes
    (applyCPUCheckKey sec.cpu_check_minutes defaultConfig) with hXdef
  constructor
  · refine ⟨applyThresholdKey sec.cpu_threshold X, rfl, ?_⟩
    rcases hk : sec.cpu_threshold with _ | kv
    · constructor
      · intro hfalse
        rw [show applyThresholdKey none X = X from rfl, hpre.1] at hfalse
        exact absurd hfalse (by decide)
      · rintro ⟨v, hv, -⟩
        exact Option.noConfusion hv
    · cases kv with
      | int v =>
        rw [show applyThresholdKey (some (KeyVal.int v)) X =
          (if 0 ≤ v ∧ v ≤ 100 then { X with CPUThreshold := v, AutoMode := false } else X)
          from rfl]
        by_cases hv : 0 ≤ v ∧ v ≤ 100
        · rw [if_pos hv]
          exact ⟨fun _ => ⟨v, rfl, hv⟩, fun _ => rfl⟩
        · rw [if_neg hv]
          constructor
          · intro hfalse
            rw [hpre.1] at hfalse
            exact absurd hfalse (by decide)
          · rintro ⟨w, hw, hw2⟩
            have h1 := Option.some.inj hw
            cases h1
            exact absurd hw2 hv
      | malformed =>
        constructor
        · intro hfalse
          rw [show applyThresholdKey (some KeyVal.malformed) X = X from rfl, hpre.1] at hfalse
          exact absurd hfalse (by decide)
        · rintro ⟨v, hv, -⟩
          exact KeyVal.noConfusion (Option.some.inj hv)
  · intro hinvalid
    have hsame : applyThresholdKey sec.cpu_threshold X = X := by
      rcases hk : sec.cpu_threshold with _ | kv
      · rfl
      · cases kv with
        | int v =>
          rw [show applyThresholdKey (some (KeyVal.int v)) X =
            (if 0 ≤ v ∧ v ≤ 100 then { X with CPUThreshold := v, AutoMode := false } else X)
            from rfl]
          exact if_neg (hinvalid v hk)
        | malformed => rfl
    refine ⟨?_, applyThresholdKey sec.cpu_threshold X, rfl, ?_, ?_⟩
    · show Except.ok (applyThresholdKey sec.cpu_threshold X) =
        Except.ok (applyThresholdKey none X)
      rw [hsame]
      rfl
    · rw [hsame]
      exact hpre.1
    · rw [hsame]
      exact hpre.2

/-- Claim C10 witness: a file whose `cpu_threshold` value does not parse
as an integer loads as if the key were absent — auto mode with default
threshold 25 — while its valid `cpu_check_minutes = 30` still applies. -/
theorem claim_C10_witness :
    Load (ConfigSource.readable exSecBadThreshold) =
      Load (ConfigSource.readable { exSecBadThreshold with cpu_threshold := none }) ∧
    Load (ConfigSource.readable exSecBadThreshold) =
      Except.ok { CPUCheckMinutes := 30, UserCheckMinutes := 60,
                  CPUThreshold := 25, AutoMode := true } := by
  have h := (claim_C10_threshold_key_validation exSecBadThreshold).2
    (by intro v hv; simp [exSecBadThreshold] at hv)
  exact ⟨h.1, by decide⟩

/-! ### Claims C6, C7 and C8: the calibrator state machine and `Run` -/

/-- Case analysis on `Calibrator.Run`: either it fails and returns the
prior state unchanged, or the lookback window passed both guards and the
run returns the rounded threshold derived from the idle baseline and the
updated state. -/
lemma Run_cases (st : State) (samples : List CPUSample) (lookback now : ℤ) :
    ((∃ e, (Calibrator.Run st samples lookback now).1 = Except.error e) ∧
      (Calibrator.Run st samples lookback now).2 = st) ∨
    (∃ b, Calibrator.findIdleBaseline (Calibrator.calibWindow samples lookback now) = some b ∧
      Calibrator.Run st samples lookback now =
        (Except.ok ((mathRound (max (b + Calibrator.ThresholdBuffer)
            Calibrator.MinThreshold) : ℤ) : ℚ),
         { st with
             InitialDone := true
             LastCalibTime := now
             CurrentThreshold := (mathRound (max (b + Calibrator.ThresholdBuffer)
               Calibrator.MinThreshold) : ℤ)
             IdleBaseline := b })) := by
  by_cases hlen :
      (Calibrator.calibWindow samples lookback now).length < Calibrator.minCalibSamples
  · left
    unfold Calibrator.Run
    rw [if_pos hlen]
    exact ⟨⟨_, rfl⟩, rfl⟩
  · cases hb : Calibrator.findIdleBaseline (Calibrator.calibWindow samples lookback now) with
    | none =>
      left
      unfold Calibrator.Run
      rw [if_neg hlen, hb]
      exact ⟨⟨_, rfl⟩, rfl⟩
    | some b =>
      right
      refine ⟨b, rfl, ?_⟩
      unfold Calibrator.Run
      rw [if_neg hlen, hb]

/-- Claim C7: a failing calibration run — insufficient samples in the
lookback window or no stable idle window — returns an error and leaves
every field of the calibration state unchanged; in particular, on a
first-attempt failure the calibrator remains in the learning phase. -/
theorem claim_C7_failed_run_preserves_state (st : State) (samples : List CPUSample)
    (lookback now : ℤ) (e : String)
    (h : (Calibrator.Run st samples lookback now).1 = Except.error e) :
    (Calibrator.Run st samples lookback now).2 = st ∧
    (st.InitialDone = false →
      Calibrator.IsInLearningPhase (Calibrator.Run st samples lookback now).2 = true) := by
  rcases Run_cases st samples lookback now with ⟨-, hst⟩ | ⟨b, -, hrun⟩
  · refine ⟨hst, fun hd => ?_⟩
    rw [hst]
    simp [Calibrator.IsInLearningPhase, hd]
  · rw [hrun] at h
    exact Except.noConfusion h

unseal Rat.add Rat.mul Rat.inv Rat.sub in
/-- Claim C7 witness: an empty sample buffer has 0 in-window samples,
fewer than the minimum 10, so the run fails with the insufficient-samples
error and a fresh (learning) state is returned unchanged. -/
theorem claim_C7_witness :
    (Calibrator.Run (Calibrator.newState 0) [] 100 100).2 = Calibrator.newState 0 ∧
    Calibrator.IsInLearningPhase (Calibrator.Run (Calibrator.newState 0) [] 100 100).2 = true := by
  have h := claim_C7_failed_run_preserves_state (Calibrator.newState 0) [] 100 100
    "insufficient samples" (by decide)
  exact ⟨h.1, h.2 rfl⟩

/-- Claim C8: `ShouldRunInitial` implies the initial calibration is not
done and `ShouldRunWeekly` implies it is, so the two transition guards
are never simultaneously true; the learning phase is exactly
`!InitialDone`, holds on a freshly created state (`now = startTime`,
independent of any clock), and is left unchanged by a failing run while
any successful run ends it — elapsed time alone never does. -/
theorem claim_C8_state_machine_invariants (st : State)
    (initialLookback recalibInterval now now2 now3 lookback : ℤ)
    (samples : List CPUSample) :
    (Calibrator.ShouldRunInitial st initialLookback now = true → st.InitialDone = false) ∧
    (Calibrator.ShouldRunWeekly st recalibInterval now2 = true → st.InitialDone = true) ∧
    ¬(Calibrator.ShouldRunInitial st initialLookback now = true ∧
      Calibrator.ShouldRunWeekly st recalibInterval now2 = true) ∧
    Calibrator.IsInLearningPhase st = !st.InitialDone ∧
    Calibrator.IsInLearningPhase (Calibrator.newState now) = true ∧
    (∀ e, (Calibrator.Run st samples lookback now3).1 = Except.error e →
      Calibrator.IsInLearningPhase (Calibrator.Run st samples lookback now3).2 =
        Calibrator.IsInLearningPhase st) ∧
    (∀ t, (Calibrator.Run st samples lookback now3).1 = Except.ok t →
      Calibrator.IsInLearningPhase (Calibrator.Run st samples lookback now3).2 = false) := by
  have hinit : Calibrator.ShouldRunInitial st initialLookback now = true →
      st.InitialDone = false := by
    intro h
    unfold Calibrator.ShouldRunInitial at h
    rcases Bool.and_eq_true_iff.mp h with ⟨h1, -⟩
    cases hd : st.InitialDone
    · rfl
    · rw [hd] at h1
      exact Bool.noConfusion h1
  have hweek : Calibrator.ShouldRunWeekly st recalibInterval now2 = true →
      st.InitialDone = true := by
    intro h
    unfold Calibrator.ShouldRunWeekly at h
    exact (Bool.and_eq_true_iff.mp h).1
  refine ⟨hinit, hweek, ?_, rfl, rfl, ?_, ?_⟩
  · rintro ⟨h1, h2⟩
    rw [hinit h1] at *
    exact Bool.noConfusion (hweek h2)
  · intro e he
    rcases Run_cases st samples lookback now3 with ⟨-, hst⟩ | ⟨b, -, hrun⟩
    · rw [hst]
    · rw [hrun] at he
      exact Except.noConfusion he
  · intro t ht
    rcases Run_cases st samples lookback now3 with ⟨⟨e, he⟩, -⟩ | ⟨b, -, hrun⟩
    · rw [he] at ht
      exact Except.noConfusion ht
    · rw [hrun]
      rfl

/-- Claim C8 witness: on a fresh state at time 0 with a zero lookback,
the initial-run guard fires, the state is indeed not initially calibrated,
the weekly guard is false, and the fresh state is in the learning phase. -/
theorem claim_C8_witness :
    (Calibrator.newState 0).InitialDone = false ∧
    Calibrator.IsInLearningPhase (Calibrator.newState 0) = true ∧
    Calibrator.ShouldRunWeekly (Calibrator.newState 0) 100 0 = false := by
  have h := claim_C8_state_machine_invariants (Calibrator.newState 0) 0 100 0 0 0 0 []
  exact ⟨h.1 (by decide), h.2.2.2.2.1, by decide⟩

/-- Claim C6: every successful calibration run returns the threshold
`round(max(idleBaseline + 3, 5))` — rounded to the nearest integer
percentage point, half away from zero — records it as the current
threshold together with the baseline; in particular a 0.5% idle baseline
gives raw threshold 3.5%, clamped to the minimum 5%. -/
theorem claim_C6_threshold_formula (st : State) (samples : List CPUSample)
    (lookback now : ℤ) (t : ℚ)
    (h : (Calibrator.Run st samples lookback now).1 = Except.ok t) :
    (∃ b, Calibrator.findIdleBaseline (Calibrator.calibWindow samples lookback now) = some b ∧
      t = ((mathRound (max (b + Calibrator.ThresholdBuffer) Calibrator.MinThreshold) : ℤ) : ℚ) ∧
      (Calibrator.Run st samples lookback now).2.CurrentThreshold = t ∧
      (Calibrator.Run st samples lookback now).2.IdleBaseline = b) ∧
    mathRound (max ((1 : ℚ) / 2 + Calibrator.ThresholdBuffer) Calibrator.MinThreshold) = 5 := by
  constructor
  · rcases Run_cases st samples lookback now with ⟨⟨e, he⟩, -⟩ | ⟨b, hb, hrun⟩
    · rw [he] at h
      exact Except.noConfusion h
    · rw [hrun] at h
      have ht := Except.ok.inj h
      exact ⟨b, hb, ht.symm, by rw [hrun, ht], by rw [hrun]⟩
  · have hle : (1 : ℚ) / 2 + Calibrator.ThresholdBuffer ≤ Calibrator.MinThreshold := by
      norm_num [Calibrator.ThresholdBuffer, Calibrator.MinThreshold]
    rw [max_eq_right hle]
    unfold mathRound
    rw [if_pos (show (0 : ℚ) ≤ Calibrator.MinThreshold by
      norm_num [Calibrator.MinThreshold])]
    rw [Int.floor_eq_iff]
    constructor
    · norm_num [Calibrator.MinThreshold]
    · norm_num [Calibrator.MinThreshold]

unseal Rat.add Rat.mul Rat.inv Rat.sub in
/-- Claim C6 witness: ten samples at 0.5% usage inside the lookback
window calibrate successfully; the baseline is 0.5%, the raw threshold
3.5% is clamped to the minimum, and the recorded threshold is 5%. -/
theorem claim_C6_witness :
    (Calibrator.Run (Calibrator.newState 0) exCalibSamples 2000 1000).2.CurrentThreshold = 5 ∧
    (Calibrator.Run (Calibrator.newState 0) exCalibSamples 2000 1000).2.IdleBaseline = 1 / 2 := by
  obtain ⟨b, hb, ht, hcur, hbase⟩ :=
    (claim_C6_threshold_formula (Calibrator.newState 0) exCalibSamples 2000 1000 5 (by decide)).1
  have hb2 : Calibrator.findIdleBaseline (Calibrator.calibWindow exCalibSamples 2000 1000) =
      some (1 / 2) := by decide
  rw [hb] at hb2
  exact ⟨hcur, by rw [hbase, Option.some.inj hb2]⟩

/-! ### Claim C5: the two-pass idle-baseline scan -/

namespace Calibrator

/-- A window with no qualifying mean leaves the running minimum alone. -/
lemma swmStep_of_none (samples : List CPUSample) (bound : ℚ) (acc : Option ℚ) (i : ℕ)
    (h : qualifyingMean samples bound i = none) :
    swmStep samples bound acc i = acc := by
  unfold qualifyingMean at h
  unfold swmStep
  by_cases hlen : (windowValues samples i).length < minWindowSamples
  · rw [if_pos hlen]
  · rw [if_neg hlen] at h ⊢
    by_cases hsd : stddevBelow (windowValues samples i) (mean (windowValues samples i)) bound
    · rw [if_pos hsd] at h
      exact Option.noConfusion h
    · have : stddevBelow (windowValues samples i) (mean (windowValues samples i)) bound
          = false := by
        cases hx : stddevBelow (windowValues samples i) (mean (windowValues samples i)) bound
        · rfl
        · exact absurd hx hsd
      rw [this]
      rw [Bool.false_and]
      rfl

/-- A window with qualifying mean `v` updates the running minimum exactly
as `minStep`. -/
lemma swmStep_of_some (samples : List CPUSample) (bound : ℚ) (acc : Option ℚ) (i : ℕ) (v : ℚ)
    (h : qualifyingMean samples bound i = some v) :
    swmStep samples bound acc i = minStep acc v := by
  unfold qualifyingMean at h
  unfold swmStep
  by_cases hlen : (windowValues samples i).length < minWindowSamples
  · rw [if_pos hlen] at h
    exact Option.noConfusion h
  · rw [if_neg hlen] at h ⊢
    by_cases hsd : stddevBelow (windowValues samples i) (mean (windowValues samples i)) bound
    · rw [if_pos hsd] at h
      have hv : mean (windowValues samples i) = v := Option.some.inj h
      rw [hsd, Bool.true_and, hv]
      cases acc with
      | none => rfl
      | some m =>
        by_cases hlt : v < m
        · simp [minStep, hlt]
        · simp [minStep, hlt]
    · rw [if_neg hsd] at h
      exact Option.noConfusion h

/-- Folding the `slidingWindowMin` loop body over any index list equals
folding `minStep` over the qualifying means of those indices. -/
lemma foldl_swmStep_eq (samples : List CPUSample) (bound : ℚ) (is : List ℕ) (acc : Option ℚ) :
    is.foldl (swmStep samples bound) acc =
    (is.filterMap (qualifyingMean samples bound)).foldl minStep acc := by
  induction is generalizing acc with
  | nil => rfl
  | cons i is ih =>
    rw [List.foldl_cons, List.filterMap_cons]
    cases hq : qualifyingMean samples bound i with
    | none =>
      rw [swmStep_of_none samples bound acc i hq, ih]
    | some v =>
      rw [swmStep_of_some samples bound acc i v hq, List.foldl_cons, ih]

/-- `slidingWindowMin` computes the `minStep`-fold of the qualifying
means. -/
lemma slidingWindowMin_eq_minFold (samples : List CPUSample) (bound : ℚ) :
    slidingWindowMin samples bound = minFold (qualMeans samples bound) := by
  unfold slidingWindowMin qualMeans minFold
  exact foldl_swmStep_eq samples bound (List.range samples.length) none

/-- Any result of folding `minStep` is an element of the list or the
initial accumulator, and is a lower bound for both. -/
lemma foldl_minStep_some (l : List ℚ) (acc : Option ℚ) (m : ℚ)
    (h : l.foldl minStep acc = some m) :
    (m ∈ l ∨ acc = some m) ∧ (∀ x ∈ l, m ≤ x) ∧ (∀ a, acc = some a → m ≤ a) := by
  induction l generalizing acc with
  | nil =>
    have hacc : acc = some m := h
    refine ⟨Or.inr hacc, ?_, ?_⟩
    · intro x hx
      exact absurd hx (List.not_mem_nil x)
    · intro a ha
      exact le_of_eq (Option.some.inj (hacc.symm.trans ha))
  | cons y l ih =>
    rw [List.foldl_cons] at h
    obtain ⟨h1, h2, h3⟩ := ih (minStep acc y) h
    have hstep : minStep acc y = some y ∨
        ∃ a, acc = some a ∧ minStep acc y = some a ∧ a ≤ y := by
      cases acc with
      | none => exact Or.inl rfl
      | some a =>
        by_cases hlt : y < a
        · exact Or.inl (by simp [minStep, hlt])
        · exact Or.inr ⟨a, rfl, by simp [minStep, hlt], not_lt.mp hlt⟩
    have hy : m ≤ y := by
      rcases hstep with hs | ⟨a, -, hs, hay⟩
      · exact h3 y hs
      · exact (h3 a hs).trans hay
    refine ⟨?_, ?_, ?_⟩
    · rcases h1 with hm | hm
      · exact Or.inl (List.mem_cons_of_mem y hm)
      · rcases hstep with hs | ⟨a, hacc, hs, -⟩
        · refine Or.inl ?_
          rw [List.mem_cons]
          exact Or.inl (Option.some.inj (hm.symm.trans hs))
        · refine Or.inr ?_
          rw [hacc, Option.some.inj (hs.symm.trans hm)]
    · intro x hx
      rcases List.mem_cons.mp hx with hx | hx
      · rw [hx]
        exact hy
      · exact h2 x hx
    · intro a ha
      cases acc with
      | none => exact Option.noConfusion ha
      | some a0 =>
        have haa : a0 = a := Option.some.inj ha
        subst haa
        by_cases hlt : y < a0
        · exact (h3 y (by simp [minStep, hlt])).trans (le_of_lt hlt)
        · exact h3 a0 (by simp [minStep, hlt])

/-- Folding `minStep` from a `some` accumulator always produces a value. -/
lemma foldl_minStep_isSome (l : List ℚ) (a : ℚ) :
    ∃ m, l.foldl minStep (some a) = some m := by
  induction l generalizing a with
  | nil => exact ⟨a, rfl⟩
  | cons y l ih =>
    rw [List.foldl_cons]
    by_cases hlt : y < a
    · simpa [minStep, hlt] using ih y
    · simpa [minStep, hlt] using ih a

/-- `slidingWindowMin` fails exactly when no window qualifies, and
otherwise returns the minimum of the qualifying windows' means. -/
lemma slidingWindowMin_spec (samples : List CPUSample) (bound : ℚ) :
    (qualMeans samples bound = [] → slidingWindowMin samples bound = none) ∧
    (qualMeans samples bound ≠ [] →
      ∃ m, slidingWindowMin samples bound = some m ∧ m ∈ qualMeans samples bound ∧
        ∀ x ∈ qualMeans samples bound, m ≤ x) := by
  constructor
  · intro hq
    rw [slidingWindowMin_eq_minFold, hq]
    rfl
  · intro hq
    obtain ⟨y, t, hyt⟩ := List.exists_cons_of_ne_nil hq
    rw [slidingWindowMin_eq_minFold, hyt]
    rw [show minFold (y :: t) = t.foldl minStep (some y) from rfl]
    obtain ⟨m, hm⟩ := foldl_minStep_isSome t y
    obtain ⟨h1, h2, h3⟩ := foldl_minStep_some t (some y) m hm
    refine ⟨m, hm, ?_, ?_⟩
    · rcases h1 with h | h
      · exact List.mem_cons_of_mem y h
      · exact List.mem_cons.mpr (Or.inl (Option.some.inj h).symm)
    · intro x hx
      rcases List.mem_cons.mp hx with hx | hx
      · rw [hx]
        exact h3 y rfl
      · exact h2 x hx

end Calibrator

/-- Claim C5: `findIdleBaseline` scans twice — a window qualifies when it
holds at least 5 samples within 30 minutes of its start and its
population standard deviation is below the bound; with the tight bound
1.0, if any window qualifies the result is the minimum of the qualifying
windows' means; otherwise the scan repeats with the loose bound 2.0; if
still no window qualifies, the run fails (no stable idle window). -/
theorem claim_C5_two_pass_baseline (samples : List CPUSample) :
    (Calibrator.qualMeans samples Calibrator.stddevTight ≠ [] →
      ∃ m, Calibrator.findIdleBaseline samples = some m ∧
        m ∈ Calibrator.qualMeans samples Calibrator.stddevTight ∧
        ∀ x ∈ Calibrator.qualMeans samples Calibrator.stddevTight, m ≤ x) ∧
    (Calibrator.qualMeans samples Calibrator.stddevTight = [] →
      Calibrator.qualMeans samples Calibrator.stddevLoose ≠ [] →
      ∃ m, Calibrator.findIdleBaseline samples = some m ∧
        m ∈ Calibrator.qualMeans samples Calibrator.stddevLoose ∧
        ∀ x ∈ Calibrator.qualMeans samples Calibrator.stddevLoose, m ≤ x) ∧
    (Calibrator.qualMeans samples Calibrator.stddevTight = [] →
      Calibrator.qualMeans samples Calibrator.stddevLoose = [] →
      Calibrator.findIdleBaseline samples = none) := by
  refine ⟨?_, ?_, ?_⟩
  · intro hq
    obtain ⟨m, hm, hmem, hmin⟩ :=
      (Calibrator.slidingWindowMin_spec samples Calibrator.stddevTight).2 hq
    refine ⟨m, ?_, hmem, hmin⟩
    unfold Calibrator.findIdleBaseline
    rw [hm]
  · intro hq1 hq2
    have hnone := (Calibrator.slidingWindowMin_spec samples Calibrator.stddevTight).1 hq1
    obtain ⟨m, hm, hmem, hmin⟩ :=
      (Calibrator.slidingWindowMin_spec samples Calibrator.stddevLoose).2 hq2
    refine ⟨m, ?_, hmem, hmin⟩
    unfold Calibrator.findIdleBaseline
    rw [hnone]
    exact hm
  · intro hq1 hq2
    unfold Calibrator.findIdleBaseline
    rw [(Calibrator.slidingWindowMin_spec samples Calibrator.stddevTight).1 hq1]
    exact (Calibrator.slidingWindowMin_spec samples Calibrator.stddevLoose).1 hq2

unseal Rat.add Rat.mul Rat.inv Rat.sub in
/-- Claim C5 witness: for the ten flat samples at 0.5% the first pass
already finds qualifying windows, and the baseline is their minimum mean
0.5%, which is itself a qualifying window's mean. -/
theorem claim_C5_witness :
    Calibrator.findIdleBaseline exCalibSamples = some (1 / 2) ∧
    (1 : ℚ) / 2 ∈ Calibrator.qualMeans exCalibSamples Calibrator.stddevTight := by
  obtain ⟨m, hm, hmem, -⟩ := (claim_C5_two_pass_baseline exCalibSamples).1 (by decide)
  have hv : Calibrator.findIdleBaseline exCalibSamples = some (1 / 2) := by decide
  have hmv : m = 1 / 2 := Option.some.inj (hm.symm.trans hv)
  exact ⟨hv, hmv ▸ hmem⟩

end IdleShutdown
